import Mathlib

/-!
Verification of the snowmelt/DHW control core (`control.py`, `relays.py`,
`setpoint_persistence.py`) against its specification.

Temperatures are modelled as rationals: every comparison performed by the
code (`>=`, `<=`, `<`, `>`) agrees with the rational order on the float
values involved, and no claim depends on float rounding of arithmetic.
-/

namespace Snowmelt

/-- `SystemState` enum from `control.py`. -/
inductive SystemState where
  | IDLE
  | HEATING
  | BYPASS
  | ERROR
  deriving DecidableEq, Repr

/-- `Setpoints` dataclass from `control.py`: a high setpoint and a deadband width. -/
structure Setpoints where
  high_temp : ℚ
  delta_t : ℚ
  deriving DecidableEq, Repr

/-- `Setpoints.low_temp` property: `high_temp - delta_t`. -/
def Setpoints.low_temp (s : Setpoints) : ℚ := s.high_temp - s.delta_t

/-- Result of one snowmelt evaluation: the subsystem state plus the
auto-desired value the tick leaves on each of the three relays. -/
structure SnowmeltOutcome where
  snowmelt_state : SystemState
  glycol_pump_auto : Bool
  primary_pump_auto : Bool
  bypass_valve_auto : Bool
  deriving DecidableEq, Repr

/-- `ControlLogic._control_snowmelt` from `control.py`, as a pure function of
the inputs it reads (enable flag, glycol return reading, glycol setpoints) and
the previous tick's state and actuator settings (which the deadband branch
leaves untouched).  The glycol pump is commanded on before the sensor check,
so it stays on in the `ERROR` branch. -/
def control_snowmelt (snowmelt_enabled : Bool) (glycol_return_temp : Option ℚ)
    (setpoints : Setpoints) (prev_state : SystemState)
    (prev_primary prev_bypass : Bool) : SnowmeltOutcome :=
  if !snowmelt_enabled then
    { snowmelt_state := .IDLE, glycol_pump_auto := false,
      primary_pump_auto := false, bypass_valve_auto := false }
  else
    match glycol_return_temp with
    | none =>
        { snowmelt_state := .ERROR, glycol_pump_auto := true,
          primary_pump_auto := false, bypass_valve_auto := false }
    | some return_temp =>
        if return_temp ≥ setpoints.high_temp then
          { snowmelt_state := .BYPASS, glycol_pump_auto := true,
            primary_pump_auto := false, bypass_valve_auto := false }
        else if return_temp ≤ setpoints.low_temp then
          { snowmelt_state := .HEATING, glycol_pump_auto := true,
            primary_pump_auto := true, bypass_valve_auto := true }
        else
          { snowmelt_state := prev_state, glycol_pump_auto := true,
            primary_pump_auto := prev_primary, bypass_valve_auto := prev_bypass }

/-- `ControlLogic._control_dhw` from `control.py`, as a pure function: returns
the DHW state and the DHW pump's auto-desired value.  Eco setpoints are
selected exactly when `eco_active` is true. -/
def control_dhw (dhw_enabled : Bool) (dhw_tank_temp : Option ℚ)
    (eco_active : Bool) (dhw_setpoints eco_setpoints : Setpoints)
    (prev_state : SystemState) (prev_pump : Bool) : SystemState × Bool :=
  if !dhw_enabled then (.IDLE, false)
  else
    match dhw_tank_temp with
    | none => (.ERROR, false)
    | some tank_temp =>
        let setpoints := if eco_active then eco_setpoints else dhw_setpoints
        if tank_temp ≥ setpoints.high_temp then (.IDLE, false)
        else if tank_temp ≤ setpoints.low_temp then (.HEATING, true)
        else (prev_state, prev_pump)

/-- Round-half-to-even to an integer, the tie rule of Python's `round`
(idealised over the rationals; the claims checked here do not depend on
binary-float representation error). -/
def roundHalfEven (q : ℚ) : ℤ :=
  let f := ⌊q⌋
  let r := q - (f : ℚ)
  if r < 1 / 2 then f
  else if 1 / 2 < r then f + 1
  else if f % 2 = 0 then f else f + 1

/-- Python `round(x, 2)`. -/
def round2 (q : ℚ) : ℚ := (roundHalfEven (q * 100) : ℚ) / 100

/-- The `hx_delta_t` computation of `ControlLogic._update_temperatures`
(`control.py` lines 246-251).  The source guard is the Python truthiness test
`if self.state.hx_in_temp and self.state.hx_out_temp:`, under which both
`None` and a reading of exactly `0.0` are falsy; only when both operands are
truthy is `round(hx_in - hx_out, 2)` stored, otherwise `None`. -/
def compute_hx_delta (hx_in_temp hx_out_temp : Option ℚ) : Option ℚ :=
  match hx_in_temp, hx_out_temp with
  | some a, some b =>
      if a ≠ 0 ∧ b ≠ 0 then some (round2 (a - b)) else none
  | _, _ => none

/-! ### Relay layer (`relays.py`) -/

/-- `EquipmentMode` enum from `relays.py`. -/
inductive EquipmentMode where
  | AUTO
  | ON
  | OFF
  deriving DecidableEq, Repr, Fintype

/-- The mutable fields of a `RelayController` that its public operations read
and write: the override mode, the control loop's auto-desired value, and the
currently-applied physical state. -/
structure Relay where
  mode : EquipmentMode
  auto_state : Bool
  is_energized : Bool
  deriving DecidableEq, Repr, Fintype

/-- A fresh `RelayController` (`__init__`): mode `AUTO`, auto-desired false,
de-energized. -/
def Relay.initial : Relay :=
  { mode := .AUTO, auto_state := false, is_energized := false }

/-- The mode-resolution rule inside `RelayController._update_state`:
`ON` forces energized, `OFF` forces de-energized, `AUTO` follows
`auto_state`. -/
def resolve (mode : EquipmentMode) (auto_state : Bool) : Bool :=
  match mode with
  | .ON => true
  | .OFF => false
  | .AUTO => auto_state

/-- `RelayController._update_state`: recompute the resolved state; if it
differs from the currently-applied state, perform one hardware write
(`_set_physical_state`) and fire one change notification.  Returns the new
relay record together with the number of hardware writes and of change
notifications performed. -/
def update_state (r : Relay) : Relay × ℕ × ℕ :=
  let new_state := resolve r.mode r.auto_state
  if new_state ≠ r.is_energized then
    ({ r with is_energized := new_state }, 1, 1)
  else (r, 0, 0)

/-- `RelayController.set_mode`: store the new mode, run `_update_state`, and
fire one additional change notification whenever the mode actually changed
(even if the resolved physical state did not). -/
def set_mode (m : EquipmentMode) (r : Relay) : Relay × ℕ × ℕ :=
  let old_mode := r.mode
  let (r1, w, n) := update_state { r with mode := m }
  if old_mode ≠ m then (r1, w, n + 1) else (r1, w, n)

/-- `RelayController.set_auto_state`: store the auto-desired value and run
`_update_state`.  (The `logger.info` on an auto-state change is a log line,
not a change notification.) -/
def set_auto_state (s : Bool) (r : Relay) : Relay × ℕ × ℕ :=
  update_state { r with auto_state := s }

/-- Two consecutive `set_auto_state true` calls, returning the final relay
and the total hardware writes and notifications of the pair. -/
def set_auto_twice (r : Relay) : Relay × ℕ × ℕ :=
  let (r1, w1, n1) := set_auto_state true r
  let (r2, w2, n2) := set_auto_state true r1
  (r2, w1 + w2, n1 + n2)

/-- Per-relay body of `RelayManager.shutdown`: `set_mode(OFF)` then
`set_auto_state(False)`. -/
def relay_shutdown (r : Relay) : Relay :=
  (set_auto_state false (set_mode .OFF r).1).1

/-- `RelayManager.shutdown`: apply the per-relay shutdown to every configured
relay (the manager's relay dictionary is modelled as an association list). -/
def manager_shutdown (relays : List (String × Relay)) : List (String × Relay) :=
  relays.map fun kv => (kv.1, relay_shutdown kv.2)

/-! ### Eco schedule (`ControlLogic._is_eco_time`) -/

/-- Decimal digit value of a character, `none` if not a digit. -/
def digitVal (c : Char) : Option ℕ :=
  if c.isDigit then some (c.toNat - 48) else none

/-- Combine parsed hour and minute fields into minutes since midnight,
enforcing `strptime`'s field ranges (`%H` in 0..23, `%M` in 0..59). -/
def mkTime (h m : ℕ) : Option ℕ :=
  if h < 24 ∧ m < 60 then some (60 * h + m) else none

/-- `datetime.strptime(s, "%H:%M").time()`, as minutes since midnight:
one- or two-digit hour, a colon, one- or two-digit minute, with the
`strptime` range checks; any other shape fails (and the source's
`except` handler then makes `_is_eco_time` return false). -/
def parseHHMM (s : String) : Option ℕ :=
  match s.data with
  | [h1, c, m1] => do
      if c = ':' then mkTime (← digitVal h1) (← digitVal m1) else none
  | [a, b, c, d] => do
      if b = ':' then
        -- one-digit hour, two-digit minute: "H:MM"
        mkTime (← digitVal a) (10 * (← digitVal c) + (← digitVal d))
      else if c = ':' then
        -- two-digit hour, one-digit minute: "HH:M"
        mkTime (10 * (← digitVal a) + (← digitVal b)) (← digitVal d)
      else none
  | [h1, h2, c, m1, m2] => do
      if c = ':' then
        mkTime (10 * (← digitVal h1) + (← digitVal h2))
          (10 * (← digitVal m1) + (← digitVal m2))
      else none
  | _ => none

/-- `ControlLogic._is_eco_time`.  `now` is the current time of day in minutes
since midnight.  Python compares `datetime.time` values lexicographically by
(hour, minute, second, ...); against the whole-minute bounds produced by
`strptime "%H:%M"` this agrees exactly with comparing minute counts, so
minute granularity for `now` is faithful.  A parse failure raises inside the
`try` block and the handler returns false. -/
def is_eco_time (eco_enabled : Bool) (eco_start eco_end : String) (now : ℕ) : Bool :=
  if !eco_enabled then false
  else
    match parseHHMM eco_start, parseHHMM eco_end with
    | some start, some e =>
        if start > e then decide (now ≥ start) || decide (now < e)
        else decide (start ≤ now) && decide (now < e)
    | _, _ => false

/-! ### Shutdown timer (`ControlLogic._check_shutdown_timer`,
`ControlLogic.get_shutdown_timer_remaining`) -/

/-- The fields of `ControlState` that the shutdown-timer logic reads and
writes.  Times are absolute timestamps in seconds (rational, since
`datetime` has sub-second resolution). -/
structure TimerState where
  snowmelt_enabled : Bool
  shutdown_timer_enabled : Bool
  shutdown_timer_end_time : Option ℚ
  shutdown_timer_duration_minutes : ℤ
  deriving DecidableEq, Repr

/-- `ControlLogic._check_shutdown_timer` at current time `now`: when the
timer is armed, has an end time, and `now >= end`, disable snowmelt and
clear the timer; otherwise leave the state untouched. -/
def check_shutdown_timer (now : ℚ) (st : TimerState) : TimerState :=
  if !st.shutdown_timer_enabled then st
  else
    match st.shutdown_timer_end_time with
    | none => st
    | some end_time =>
        if now ≥ end_time then
          { snowmelt_enabled := false, shutdown_timer_enabled := false,
            shutdown_timer_end_time := none, shutdown_timer_duration_minutes := 0 }
        else st

/-- Python `int()` on a rational: truncation toward zero. -/
def pyInt (q : ℚ) : ℤ := if q ≥ 0 then ⌊q⌋ else ⌈q⌉

/-- `ControlLogic.get_shutdown_timer_remaining` at current time `now`:
`None` unless the timer is enabled with an end time, else
`max(0, int(end - now))` seconds.  (A `datetime` object is always truthy,
so the source's `not self.state.shutdown_timer_end_time` is exactly an
`is None` test.) -/
def get_shutdown_timer_remaining (now : ℚ) (st : TimerState) : Option ℤ :=
  if !st.shutdown_timer_enabled then none
  else
    match st.shutdown_timer_end_time with
    | none => none
    | some end_time => some (max 0 (pyInt (end_time - now)))

/-! ### Setpoint persistence (`setpoint_persistence.py`)

The persisted file is a flat YAML mapping.  `yaml.safe_dump` followed by
`yaml.safe_load` reproduces a flat dict of floats and strings (the dumper
quotes any string, such as "22:00", that would otherwise resolve to another
type), so at this abstraction the file contents are the dict itself. -/

/-- A YAML scalar as the persistence layer uses it: a float or a string. -/
inductive YamlValue where
  | yfloat (q : ℚ)
  | ystr (s : String)
  deriving DecidableEq, Repr

/-- `PersistedSetpoints` dataclass. -/
structure PersistedSetpoints where
  glycol_high_temp : ℚ
  glycol_delta_t : ℚ
  dhw_high_temp : ℚ
  dhw_delta_t : ℚ
  eco_high_temp : ℚ
  eco_delta_t : ℚ
  eco_start : String
  eco_end : String
  deriving DecidableEq, Repr

/-- `PersistedSetpoints.to_dict` (`dataclasses.asdict`): the 8-field flat
dict, as an association list. -/
def PersistedSetpoints.to_dict (p : PersistedSetpoints) : List (String × YamlValue) :=
  [("glycol_high_temp", .yfloat p.glycol_high_temp),
   ("glycol_delta_t", .yfloat p.glycol_delta_t),
   ("dhw_high_temp", .yfloat p.dhw_high_temp),
   ("dhw_delta_t", .yfloat p.dhw_delta_t),
   ("eco_high_temp", .yfloat p.eco_high_temp),
   ("eco_delta_t", .yfloat p.eco_delta_t),
   ("eco_start", .ystr p.eco_start),
   ("eco_end", .ystr p.eco_end)]

/-- Python `dict.get(key, default)` on an association list. -/
def dictGet (data : List (String × YamlValue)) (key : String)
    (dflt : YamlValue) : YamlValue :=
  (data.lookup key).getD dflt

/-- Python `float(v)` on a loaded YAML scalar.  On a float it is the
identity; on a string it raises unless the string is numeric — the file the
debounced save writes never stores a string under a float key, so the
string case is modelled as failure. -/
def pyFloat (v : YamlValue) : Option ℚ :=
  match v with
  | .yfloat q => some q
  | .ystr _ => none

/-- Python `str(v)` on a loaded YAML scalar (for a float key this would be
its decimal rendering; only the string case is exercised by the claims). -/
def pyStr (v : YamlValue) : String :=
  match v with
  | .ystr s => s
  | .yfloat q => toString q

/-- `PersistedSetpoints.from_dict`: read each of the 8 keys with its
hard-coded default and coerce with `float`/`str`.  A failing `float`
coercion raises, hence `Option`. -/
def PersistedSetpoints.from_dict (data : List (String × YamlValue)) :
    Option PersistedSetpoints := do
  let gh ← pyFloat (dictGet data "glycol_high_temp" (.yfloat 110))
  let gd ← pyFloat (dictGet data "glycol_delta_t" (.yfloat 15))
  let dh ← pyFloat (dictGet data "dhw_high_temp" (.yfloat 125))
  let dd ← pyFloat (dictGet data "dhw_delta_t" (.yfloat 10))
  let eh ← pyFloat (dictGet data "eco_high_temp" (.yfloat 115))
  let ed ← pyFloat (dictGet data "eco_delta_t" (.yfloat 15))
  some { glycol_high_temp := gh, glycol_delta_t := gd,
         dhw_high_temp := dh, dhw_delta_t := dd,
         eco_high_temp := eh, eco_delta_t := ed,
         eco_start := pyStr (dictGet data "eco_start" (.ystr "22:00")),
         eco_end := pyStr (dictGet data "eco_end" (.ystr "06:00")) }

/-- The `defaults` argument of `SetpointPersistence.load`, flattened: the
source reads `defaults.get('glycol', {}).get('high_temp', 110.0)` etc., so
each leaf is either present or absent. -/
structure SetpointDefaults where
  glycol_high_temp : Option ℚ := none
  glycol_delta_t : Option ℚ := none
  dhw_high_temp : Option ℚ := none
  dhw_delta_t : Option ℚ := none
  eco_high_temp : Option ℚ := none
  eco_delta_t : Option ℚ := none
  eco_start : Option String := none
  eco_end : Option String := none
  deriving Repr

/-- The `merged` dict `SetpointPersistence.load` builds from its defaults
before overlaying the persisted file. -/
def mergedDefaults (d : SetpointDefaults) : List (String × YamlValue) :=
  [("glycol_high_temp", .yfloat (d.glycol_high_temp.getD 110)),
   ("glycol_delta_t", .yfloat (d.glycol_delta_t.getD 15)),
   ("dhw_high_temp", .yfloat (d.dhw_high_temp.getD 125)),
   ("dhw_delta_t", .yfloat (d.dhw_delta_t.getD 10)),
   ("eco_high_temp", .yfloat (d.eco_high_temp.getD 115)),
   ("eco_delta_t", .yfloat (d.eco_delta_t.getD 15)),
   ("eco_start", .ystr (d.eco_start.getD "22:00")),
   ("eco_end", .ystr (d.eco_end.getD "06:00"))]

/-- `SetpointPersistence._do_save`'s actual write: the file contents become
`setpoints.to_dict()` (written to a temp file, atomically renamed). -/
def do_save (p : PersistedSetpoints) : List (String × YamlValue) :=
  p.to_dict

/-- `SetpointPersistence.load`: build `merged` from the defaults; if a
persisted file exists (`file = some contents`), override each key present
in it (`for key in merged: if key in persisted: merged[key] = persisted[key]`);
finally run `PersistedSetpoints.from_dict` on the result. -/
def load (d : SetpointDefaults) (file : Option (List (String × YamlValue))) :
    Option PersistedSetpoints :=
  let merged := mergedDefaults d
  let merged2 :=
    match file with
    | none => merged
    | some persisted =>
        merged.map fun kv =>
          match persisted.lookup kv.1 with
          | some v => (kv.1, v)
          | none => kv
  PersistedSetpoints.from_dict merged2

/-! ## Theorems -/

/-- C1: with snowmelt enabled and a glycol return reading present, a tick
classifies against the glycol setpoints in source order:
`return_temp >= high_temp` gives `BYPASS` with bypass valve and primary pump
auto-desired false; failing that, `return_temp <= low_temp` gives `HEATING`
with both auto-desired true; strictly inside the deadband the state and both
actuators' auto-desired values are carried over unchanged from the previous
tick (the glycol pump is auto-desired true throughout). -/
theorem C1_snowmelt_hysteresis (sp : Setpoints) (prev : SystemState)
    (pp pb : Bool) (rt : ℚ) :
    (rt ≥ sp.high_temp →
      control_snowmelt true (some rt) sp prev pp pb =
        { snowmelt_state := .BYPASS, glycol_pump_auto := true,
          primary_pump_auto := false, bypass_valve_auto := false }) ∧
    (rt < sp.high_temp → rt ≤ sp.low_temp →
      control_snowmelt true (some rt) sp prev pp pb =
        { snowmelt_state := .HEATING, glycol_pump_auto := true,
          primary_pump_auto := true, bypass_valve_auto := true }) ∧
    (sp.low_temp < rt → rt < sp.high_temp →
      control_snowmelt true (some rt) sp prev pp pb =
        { snowmelt_state := prev, glycol_pump_auto := true,
          primary_pump_auto := pp, bypass_valve_auto := pb }) := by
  refine ⟨fun h1 => ?_, fun h1 h2 => ?_, fun h1 h2 => ?_⟩
  · simp [control_snowmelt, h1]
  · simp [control_snowmelt, not_le.mpr h1, h2]
  · simp [control_snowmelt, not_le.mpr h1, not_le.mpr h2]

/-- Witness for C1 at the spec's example `high_temp=110, delta_t=15`
(so `low_temp=95`): `return_temp=110` gives `BYPASS`, `return_temp=95`
gives `HEATING`, and `return_temp=102` with previous state `HEATING` and
both actuators on holds everything. -/
theorem C1_snowmelt_hysteresis_witness :
    control_snowmelt true (some 110) ⟨110, 15⟩ .IDLE false false =
      { snowmelt_state := .BYPASS, glycol_pump_auto := true,
        primary_pump_auto := false, bypass_valve_auto := false } ∧
    control_snowmelt true (some 95) ⟨110, 15⟩ .IDLE false false =
      { snowmelt_state := .HEATING, glycol_pump_auto := true,
        primary_pump_auto := true, bypass_valve_auto := true } ∧
    control_snowmelt true (some 102) ⟨110, 15⟩ .HEATING true true =
      { snowmelt_state := .HEATING, glycol_pump_auto := true,
        primary_pump_auto := true, bypass_valve_auto := true } :=
  ⟨(C1_snowmelt_hysteresis ⟨110, 15⟩ .IDLE false false 110).1 (by norm_num),
   (C1_snowmelt_hysteresis ⟨110, 15⟩ .IDLE false false 95).2.1 (by norm_num)
     (by norm_num [Setpoints.low_temp]),
   (C1_snowmelt_hysteresis ⟨110, 15⟩ .HEATING true true 102).2.2
     (by norm_num [Setpoints.low_temp]) (by norm_num)⟩

/-- C2: with snowmelt enabled and no glycol return reading, every tick yields
state `ERROR`, bypass valve auto-desired false, primary pump auto-desired
false, and glycol pump auto-desired true, whatever the previous state and
actuator settings were (the evaluation is a total function: no exception
reaches the caller). -/
theorem C2_snowmelt_sensor_error (sp : Setpoints) (prev : SystemState)
    (pp pb : Bool) :
    control_snowmelt true none sp prev pp pb =
      { snowmelt_state := .ERROR, glycol_pump_auto := true,
        primary_pump_auto := false, bypass_valve_auto := false } := rfl

/-- C3 (divergence): with both heat-exchanger readings present but the inlet
reading exactly `0.0`, the code stores `hx_delta_t = None` instead of the
rounded difference `-5.0`, because the guard is the truthiness test
`if hx_in_temp and hx_out_temp` and `0.0` is falsy; with both readings
nonzero the rounded difference is stored as specified. -/
theorem C3_hx_delta_zero_reading :
    compute_hx_delta (some 0) (some 5) = none ∧
    compute_hx_delta (some 32) (some 5) = some 27 := by
  constructor
  · decide
  · norm_num [compute_hx_delta, round2, roundHalfEven]

/-- C4 counterexample: on a relay in `AUTO` mode, auto-desired false and
de-energized, `set_mode OFF` leaves the resolved value equal to the
currently-applied value (both de-energized, so zero hardware writes) yet
fires one change notification — refuting the claim that a notification
occurs only when the resolved value differs from the applied value. -/
theorem C4_notify_without_resolved_change :
    set_mode .OFF { mode := .AUTO, auto_state := false, is_energized := false } =
      ({ mode := .OFF, auto_state := false, is_energized := false }, 0, 1) ∧
    resolve .OFF false =
      (Relay.mk .AUTO false false).is_energized := by decide

/-- C4 (amended): the resolved physical state after any mutation is
`ON` → energized, `OFF` → de-energized, `AUTO` → auto-desired; a hardware
write occurs only when the resolved value differs from the currently-applied
value, and `set_auto_state` notifies only then as well; `set_mode`
additionally fires one notification whenever the mode itself changed; and
two consecutive `set_auto_state true` calls on a fresh relay in `AUTO`
(de-energized) perform exactly one hardware write and one notification in
total. -/
theorem C4_relay_resolution_debounce :
    (∀ s : Bool, resolve .ON s = true ∧ resolve .OFF s = false ∧
      resolve .AUTO s = s) ∧
    (∀ (r : Relay) (m : EquipmentMode),
      (set_mode m r).1.is_energized = resolve m r.auto_state ∧
      (set_mode m r).2.1 =
        (if resolve m r.auto_state ≠ r.is_energized then 1 else 0) ∧
      (set_mode m r).2.2 =
        (if resolve m r.auto_state ≠ r.is_energized then 1 else 0) +
          (if r.mode ≠ m then 1 else 0)) ∧
    (∀ (r : Relay) (s : Bool),
      (set_auto_state s r).1.is_energized = resolve r.mode s ∧
      (set_auto_state s r).2.1 =
        (if resolve r.mode s ≠ r.is_energized then 1 else 0) ∧
      (set_auto_state s r).2.2 =
        (if resolve r.mode s ≠ r.is_energized then 1 else 0)) ∧
    set_auto_twice Relay.initial =
      ({ mode := .AUTO, auto_state := true, is_energized := true }, 1, 1) := by
  decide

/-- C5: with DHW enabled, a tick evaluates the tank reading against the eco
setpoints exactly when `eco_active` is true and against the DHW setpoints
otherwise; a missing reading gives `ERROR` with the pump auto-desired false;
`tank >= high` gives `IDLE` with the pump false; failing that `tank <= low`
gives `HEATING` with the pump true; strictly inside the deadband the state
and pump setting are carried over unchanged. -/
theorem C5_dhw_control (tank : Option ℚ) (eco : Bool)
    (dhw_sp eco_sp : Setpoints) (prev : SystemState) (pp : Bool) :
    (tank = none →
      control_dhw true tank eco dhw_sp eco_sp prev pp = (.ERROR, false)) ∧
    (∀ t : ℚ, tank = some t →
      (t ≥ (if eco then eco_sp else dhw_sp).high_temp →
        control_dhw true tank eco dhw_sp eco_sp prev pp = (.IDLE, false)) ∧
      (t < (if eco then eco_sp else dhw_sp).high_temp →
        t ≤ (if eco then eco_sp else dhw_sp).low_temp →
        control_dhw true tank eco dhw_sp eco_sp prev pp = (.HEATING, true)) ∧
      ((if eco then eco_sp else dhw_sp).low_temp < t →
        t < (if eco then eco_sp else dhw_sp).high_temp →
        control_dhw true tank eco dhw_sp eco_sp prev pp = (prev, pp))) := by
  refine ⟨fun hnone => ?_, fun t ht => ⟨fun h1 => ?_, fun h1 h2 => ?_,
    fun h1 h2 => ?_⟩⟩
  · simp [control_dhw, hnone]
  · cases eco <;> simp_all [control_dhw]
  · cases eco <;> simp_all [control_dhw, not_le.mpr h1]
  · cases eco <;> simp_all [control_dhw] <;>
      rw [if_neg (not_le.mpr h2), if_neg (not_le.mpr h1)]

/-- Witness for C5: tank at 120 with DHW setpoints `(125, 10)` while eco is
inactive is inside the deadband and holds the previous `(HEATING, pump on)`;
the same tank reading while eco is active with eco setpoints `(115, 15)` is
at/above the eco high setpoint and idles the pump; a missing reading gives
`ERROR` with the pump off. -/
theorem C5_dhw_control_witness :
    control_dhw true (some 120) false ⟨125, 10⟩ ⟨115, 15⟩ .HEATING true =
      (.HEATING, true) ∧
    control_dhw true (some 120) true ⟨125, 10⟩ ⟨115, 15⟩ .HEATING true =
      (.IDLE, false) ∧
    control_dhw true none false ⟨125, 10⟩ ⟨115, 15⟩ .IDLE false =
      (.ERROR, false) :=
  ⟨(((C5_dhw_control (some 120) false ⟨125, 10⟩ ⟨115, 15⟩ .HEATING true).2
      120 rfl).2.2) (by norm_num [Setpoints.low_temp]) (by norm_num),
   (((C5_dhw_control (some 120) true ⟨125, 10⟩ ⟨115, 15⟩ .HEATING true).2
      120 rfl).1) (by norm_num),
   (C5_dhw_control none false ⟨125, 10⟩ ⟨115, 15⟩ .IDLE false).1 rfl⟩

/-- C6: `eco_active` is false when eco is disabled; otherwise, with `start`
and `end` parsed from the "HH:MM" schedule strings, an overnight window
(`start > end`) is active iff `now >= start` or `now < end`, and a same-day
window is active iff `start <= now < end`; in particular for
`start="22:00", end="06:00"` the times 23:00 and 05:00 are active and 12:00
is not, and for `start="08:00", end="17:00"` 09:00 is active and 20:00 is
not. -/
theorem C6_eco_window (s e : String) (n : ℕ) :
    (is_eco_time false s e n = false) ∧
    (∀ st en : ℕ, parseHHMM s = some st → parseHHMM e = some en →
      is_eco_time true s e n =
        if en < st then (decide (st ≤ n) || decide (n < en))
        else (decide (st ≤ n) && decide (n < en))) ∧
    (is_eco_time true "22:00" "06:00" (23 * 60) = true ∧
     is_eco_time true "22:00" "06:00" (5 * 60) = true ∧
     is_eco_time true "22:00" "06:00" (12 * 60) = false ∧
     is_eco_time true "08:00" "17:00" (9 * 60) = true ∧
     is_eco_time true "08:00" "17:00" (20 * 60) = false) := by
  refine ⟨rfl, fun st en hs he => ?_, by decide⟩
  simp [is_eco_time, hs, he, gt_iff_lt]

/-- Witness for C6: the overnight window "22:00"–"06:00" parses to
1320 and 360 minutes, and at 23:00 (1380 minutes) the general window rule
evaluates to active. -/
theorem C6_eco_window_witness :
    is_eco_time true "22:00" "06:00" 1380 =
      (if 360 < 1320 then (decide (1320 ≤ 1380) || decide (1380 < 360))
       else (decide (1320 ≤ 1380) && decide (1380 < 360))) :=
  (C6_eco_window "22:00" "06:00" 1380).2.1 1320 360 (by decide) (by decide)

/-- C7: an armed shutdown timer whose end time is at or before the current
time makes the next tick disable snowmelt and clear the timer (enabled
false, end time `None`, duration 0); `get_shutdown_timer_remaining` returns
`None` whenever the timer is not active (not enabled, or no end time), and
otherwise a non-negative number of seconds that is exactly 0 at or after
expiry. -/
theorem C7_shutdown_timer (now : ℚ) (st : TimerState) :
    (∀ t : ℚ, st.shutdown_timer_enabled = true →
      st.shutdown_timer_end_time = some t → t ≤ now →
      check_shutdown_timer now st =
        { snowmelt_enabled := false, shutdown_timer_enabled := false,
          shutdown_timer_end_time := none,
          shutdown_timer_duration_minutes := 0 }) ∧
    (st.shutdown_timer_enabled = false ∨ st.shutdown_timer_end_time = none →
      get_shutdown_timer_remaining now st = none) ∧
    (∀ t : ℚ, st.shutdown_timer_enabled = true →
      st.shutdown_timer_end_time = some t →
      ∃ k : ℤ, get_shutdown_timer_remaining now st = some k ∧
        0 ≤ k ∧ (t ≤ now → k = 0)) := by
  refine ⟨fun t hen hend hle => ?_, fun h => ?_, fun t hen hend => ?_⟩
  · simp [check_shutdown_timer, hen, hend, hle]
  · rcases h with h | h <;> simp [get_shutdown_timer_remaining, h]
  · refine ⟨max 0 (pyInt (t - now)),
      by simp [get_shutdown_timer_remaining, hen, hend], le_max_left 0 _,
      fun hle => ?_⟩
    have hnp : pyInt (t - now) ≤ 0 := by
      unfold pyInt
      rcases le_or_lt 0 (t - now) with h0 | h0
      · rw [if_pos h0]
        exact Int.floor_nonpos (by linarith)
      · rw [if_neg (not_le.mpr h0)]
        exact Int.ceil_le.mpr (by push_cast; linarith)
    simpa using hnp

/-- Witness for C7: a timer armed to end at t=90 s, seen at t=100 s, clears
the state and snowmelt on the next tick and reports 0 remaining seconds;
with the timer disabled the remaining time is `None`. -/
theorem C7_shutdown_timer_witness :
    check_shutdown_timer 100 ⟨true, true, some 90, 30⟩ =
      ⟨false, false, none, 0⟩ ∧
    get_shutdown_timer_remaining 100 ⟨false, false, some 90, 30⟩ = none ∧
    ∃ k : ℤ, get_shutdown_timer_remaining 100 ⟨true, true, some 90, 30⟩ =
      some k ∧ 0 ≤ k ∧ (90 ≤ (100 : ℚ) → k = 0) :=
  ⟨(C7_shutdown_timer 100 ⟨true, true, some 90, 30⟩).1 90 rfl rfl
      (by norm_num),
   (C7_shutdown_timer 100 ⟨false, false, some 90, 30⟩).2.1 (Or.inl rfl),
   (C7_shutdown_timer 100 ⟨true, true, some 90, 30⟩).2.2 90 rfl rfl⟩

/-- C8: writing any `PersistedSetpoints` (the debounced save's actual write)
and reloading the resulting file reproduces the same 8 field values,
whatever defaults are supplied to `load` — every persisted key overrides
its default. -/
theorem C8_setpoint_roundtrip (p : PersistedSetpoints) (d : SetpointDefaults) :
    load d (some (do_save p)) = some p := by
  cases p
  rfl

/-- C9: with a zero-width or inverted deadband (`delta_t <= 0`, so
`low_temp >= high_temp`), the snowmelt evaluation never takes the
deadband-hold branch: `return_temp >= high_temp` resolves to `BYPASS`
(checked first, taking precedence even though `return_temp <= low_temp` may
also hold), `return_temp < high_temp` forces `return_temp <= low_temp` and
resolves to `HEATING`, and every reading therefore resolves to exactly one
of the two. -/
theorem C9_inverted_deadband_total (sp : Setpoints) (h : sp.delta_t ≤ 0)
    (rt : ℚ) (prev : SystemState) (pp pb : Bool) :
    (rt < sp.high_temp → rt ≤ sp.low_temp) ∧
    (rt ≥ sp.high_temp →
      control_snowmelt true (some rt) sp prev pp pb =
        { snowmelt_state := .BYPASS, glycol_pump_auto := true,
          primary_pump_auto := false, bypass_valve_auto := false }) ∧
    (rt < sp.high_temp →
      control_snowmelt true (some rt) sp prev pp pb =
        { snowmelt_state := .HEATING, glycol_pump_auto := true,
          primary_pump_auto := true, bypass_valve_auto := true }) ∧
    (control_snowmelt true (some rt) sp prev pp pb =
        { snowmelt_state := .BYPASS, glycol_pump_auto := true,
          primary_pump_auto := false, bypass_valve_auto := false } ∨
      control_snowmelt true (some rt) sp prev pp pb =
        { snowmelt_state := .HEATING, glycol_pump_auto := true,
          primary_pump_auto := true, bypass_valve_auto := true }) := by
  have hlow : sp.high_temp ≤ sp.low_temp := by
    unfold Setpoints.low_temp
    linarith
  have hcase : ∀ h1 : rt < sp.high_temp, rt ≤ sp.low_temp :=
    fun h1 => le_trans (le_of_lt h1) hlow
  refine ⟨hcase, fun h1 => ?_, fun h1 => ?_, ?_⟩
  · simp [control_snowmelt, h1]
  · simp [control_snowmelt, not_le.mpr h1, hcase h1]
  · rcases le_or_lt sp.high_temp rt with h1 | h1
    · exact Or.inl (by simp [control_snowmelt, h1])
    · exact Or.inr (by simp [control_snowmelt, not_le.mpr h1, hcase h1])

/-- Witness for C9 at a zero-width deadband `high_temp=110, delta_t=0`:
a reading of 105 (below high) resolves to `HEATING`. -/
theorem C9_inverted_deadband_total_witness :
    control_snowmelt true (some 105) ⟨110, 0⟩ .IDLE false false =
      { snowmelt_state := .HEATING, glycol_pump_auto := true,
        primary_pump_auto := true, bypass_valve_auto := true } :=
  (C9_inverted_deadband_total ⟨110, 0⟩ (by norm_num) 105 .IDLE false
    false).2.2.1 (by norm_num)

/-- C10: after `RelayManager.shutdown`, every configured relay has mode
`OFF`, auto-desired false, and is de-energized; and a relay in `OFF` mode
that is de-energized can never be energized by any further sequence of
`set_auto_state` calls — `OFF` forces the resolved state de-energized
regardless of the auto-desired value. -/
theorem C10_manager_shutdown_safe (relays : List (String × Relay)) :
    (∀ kv ∈ manager_shutdown relays,
      kv.2.mode = .OFF ∧ kv.2.auto_state = false ∧
      kv.2.is_energized = false) ∧
    (∀ (r : Relay) (l : List Bool), r.mode = .OFF → r.is_energized = false →
      (l.foldl (fun a s => (set_auto_state s a).1) r).mode = .OFF ∧
      (l.foldl (fun a s => (set_auto_state s a).1) r).is_energized = false) := by
  have hsd : ∀ r : Relay, relay_shutdown r =
      { mode := .OFF, auto_state := false, is_energized := false } := by decide
  constructor
  · intro kv hkv
    rcases List.mem_map.mp hkv with ⟨kv0, _, rfl⟩
    simp [hsd kv0.2]
  · intro r l
    induction l generalizing r with
    | nil => intro hm he; exact ⟨hm, he⟩
    | cons s l ih =>
        intro hm he
        have hstep : (set_auto_state s r).1 =
            { mode := .OFF, auto_state := s, is_energized := false } := by
          simp [set_auto_state, update_state, resolve, hm, he]
        simpa [hstep] using ih (Relay.mk .OFF s false) rfl rfl

/-- Witness for C10: shutting down a one-relay manager whose relay was
forced `ON` and energized leaves it `OFF`, auto false, de-energized; and
from that state the call sequence `set_auto_state true/false/true` leaves
the relay `OFF` and de-energized. -/
theorem C10_manager_shutdown_safe_witness :
    ((relay_shutdown (Relay.mk .ON true true)).mode = .OFF ∧
      (relay_shutdown (Relay.mk .ON true true)).auto_state = false ∧
      (relay_shutdown (Relay.mk .ON true true)).is_energized = false) ∧
    ([true, false, true].foldl (fun a s => (set_auto_state s a).1)
        (Relay.mk .OFF false false)).mode = .OFF ∧
    ([true, false, true].foldl (fun a s => (set_auto_state s a).1)
        (Relay.mk .OFF false false)).is_energized = false :=
  ⟨(C10_manager_shutdown_safe
      [("glycol_pump", Relay.mk .ON true true)]).1
      ("glycol_pump", relay_shutdown (Relay.mk .ON true true))
      (List.mem_singleton.mpr rfl),
   (C10_manager_shutdown_safe []).2 (Relay.mk .OFF false false)
     [true, false, true] rfl rfl⟩

end Snowmelt
